import Mathlib

/-!
Shallow embedding of the GCS_Gen lead-finder core (src/crawler.py,
src/lead_finder.py, src/utils.py, src/config.py) and proofs about the
domain-evaluation pipeline: spam-confidence aggregation, the
validation/admission gate, the critical-performance override, the two
scoring policies, the technology extractor and the per-page fetch.

Python strings are embedded as Lean `String`, dictionaries as structures,
Python truthiness of optional numeric fields as explicit `Option` matches
with a zero guard, and float division of the confidence average as exact
division in `ℚ`.
-/

namespace GCSGen

/-- Boolean test that a character list is a prefix of another
(embeds Python `str.startswith` on the underlying characters). -/
def listPrefixOf : List Char → List Char → Bool
  | [], _ => true
  | _ :: _, [] => false
  | a :: as, b :: bs => a == b && listPrefixOf as bs

/-- Boolean test that `pat` occurs as a contiguous substring;
embeds Python `pat in s`. -/
def listInfixOf (pat : List Char) : List Char → Bool
  | [] => pat.isEmpty
  | c :: tl => listPrefixOf pat (c :: tl) || listInfixOf pat tl

/-- Python `pat in s` for strings. -/
def containsSubstr (s pat : String) : Bool :=
  listInfixOf pat.data s.data

/-- Python `s.endswith(suf)`. -/
def strEndsWith (s suf : String) : Bool :=
  listPrefixOf suf.data.reverse s.data.reverse

/-- Python `s.lower()` (ASCII case folding, character-wise). -/
def lowerStr (s : String) : String :=
  String.mk (s.data.map Char.toLower)

/-- config.py: `SCORE_MIN = 40` — minimum score to save a lead. -/
def SCORE_MIN : ℤ := 40

/-- config.py: `PREVIOUSLY_SCANNED_DOMAINS` — domains excluded from re-analysis. -/
def PREVIOUSLY_SCANNED_DOMAINS : List String :=
  ["springstderm.com", "tribecaskincenter.com", "thedermspecs.com", "peninsuladermatologyva.com",
   "dermatologycenterofwilliamsburg.com", "skinlab-nyc.com", "schweigerderm.com", "triparkderm.com",
   "pschr.com", "sinyderm.com", "pariserderm.com", "weiserskin.com", "couturemedspa.com",
   "evolvemedspa.com", "the-mspa.com", "brooklyn-dermatology.com", "newbloomderm.com",
   "soho-hawaii.com", "soho-wellness.com", "williamsburgsaltspa.com", "abathhouse.com",
   "tribecasalon.com", "havenspa.nyc", "blissspa.com", "sohonailsspachesterfield.com",
   "sohobubblespanyc.com", "sohosalons.com", "aestheticswall.com", "artisticnailwilliamsburg.com",
   "williamsburgbeautyspa.com", "damianwestsalon.com", "sohonailsandlashes.com", "shampooavenueb.com",
   "thesisleyspa.com", "tokuyamasalon.com", "romanksalon.com",
   "lapecorabianca.com", "onewhitestreetnyc.com", "tamarindtribeca.com", "charliebirdnyc.com",
   "dellasnyc.com", "fatcanarywilliamsburg.com", "leyacawilliamsburg.org", "foodforthoughtrestaurant.com",
   "themanner.com", "juliettebk.com", "walkerhotels.com", "thegreenwichhotel.com",
   "rosewoodhotels.com", "thedominickhotel.com", "spa.cowshed.com", "fabioscalia.com",
   "laicale.com", "lilianewyork.com", "estelanyc.com", "delfriscosgrille.com",
   "thecornerstoresoho.com", "gknyc.com", "perrinenyc.com", "brooklyndiner.com",
   "frenchettenyc.com", "stoutnyc.com", "serendipity3.com", "villardnyc.com",
   "oceanarestaurant.com", "philippechow.com", "palmanyc.com", "sundayinbrooklyn.com",
   "junoonnyc.com", "theseafiregrill.com", "frankiesspuntino.com", "loringplacenyc.com",
   "freemansrestaurant.com", "redroosterharlem.com", "rivercafe.com", "rubirosanyc.com",
   "mastrosrestaurants.com", "robertnyc.com", "lecoucou.com", "brunosofbrooklyn.com",
   "casamononyc.com",
   "berrets.com", "visitwilliamsburg.com", "sohorochesterhills.com", "williamsburgwinery.com",
   "sohohome.com", "pera-soho.com", "norr11.com", "everbody.com", "chambers.nyc",
   "tribecalawsuitloans.com", "tribecaspa.nyc", "beaire.com", "koolinashops.com",
   "williamsburglawgroup.com", "columbiadoctors.org", "grsm.com", "skytalegroup.com",
   "joossefamilyorthodontics.com", "nyc-cpa.com", "thenycalliance.org", "osc.ny.gov"]

/-- The confidence tag of high-confidence spam signal descriptions
(crawler.py `calculate_spam_confidence` matches this substring). -/
def tag100 : String := "100% confidence"

/-- The confidence tag of medium-confidence spam signal descriptions. -/
def tag60 : String := "60% confidence"

/-- The confidence tag of low-confidence spam signal descriptions. -/
def tag20 : String := "20% confidence"

/-- Result shape of `WebCrawler.calculate_spam_confidence` (crawler.py 409-441). -/
structure SpamConfidence where
  avg_confidence : ℚ
  high_confidence_count : ℕ
  medium_confidence_count : ℕ
  low_confidence_count : ℕ
  total_signals : ℕ
  recommendation : String
  deriving Repr, DecidableEq

/-- crawler.py `WebCrawler.calculate_spam_confidence` (lines 409-441): counts
signals whose description contains each of the three confidence-tag
substrings, forms the weighted average over tagged signals (0 when no signal
is tagged), and picks the recommendation band. -/
def calculate_spam_confidence (signals : List String) : SpamConfidence :=
  let high_confidence_count := (signals.filter (fun s => containsSubstr s tag100)).length
  let medium_confidence_count := (signals.filter (fun s => containsSubstr s tag60)).length
  let low_confidence_count := (signals.filter (fun s => containsSubstr s tag20)).length
  let total_confidence : ℕ :=
    high_confidence_count * 100 + medium_confidence_count * 60 + low_confidence_count * 20
  let total_signals := high_confidence_count + medium_confidence_count + low_confidence_count
  let avg_confidence : ℚ :=
    if total_signals = 0 then 0 else (total_confidence : ℚ) / (total_signals : ℚ)
  let recommendation :=
    if 90 ≤ avg_confidence then "REJECT - High confidence spam"
    else if 40 ≤ avg_confidence then "REVIEW - Medium confidence, needs human review"
    else if 15 ≤ avg_confidence then "ACCEPT - Low confidence, likely false positive"
    else "ACCEPT - No spam detected"
  { avg_confidence := avg_confidence,
    high_confidence_count := high_confidence_count,
    medium_confidence_count := medium_confidence_count,
    low_confidence_count := low_confidence_count,
    total_signals := total_signals,
    recommendation := recommendation }

/-- crawler.py `detect_hacked_signals` (lines 367-374): the fixed list of
suspicious URL paths. -/
def suspicious_paths : List String :=
  ["/wp-content/uploads/", "/cache/", "/tmp/", "/backup/",
   "/wp-backup/", "/shell.php", "/old/", "/wp-admin.php"]

/-- crawler.py `detect_hacked_signals` (lines 372-374): for each suspicious
path contained in the lowercased page URL, a signal string
"Suspicious path: path" is appended (no confidence tag). -/
def detect_suspicious_path_signals (url : String) : List String :=
  (suspicious_paths.filter (fun p => containsSubstr (lowerStr url) p)).map
    (fun p => "Suspicious path: " ++ p)

/-- The hidden-spam signal string appended by crawler.py
`detect_hacked_signals` line 378 when `_detect_hidden_spam` fires. -/
def hidden_spam_signal : String := "Hidden spam content detected (100% confidence)"

/-- lead_finder.py `_validate_lead` line 643: hardcoded non-commercial TLD
suffixes that are filtered out. -/
def excluded_tlds : List String := [".org", ".edu", ".gov", ".mil", ".int", ".ac"]

/-- lead_finder.py `_validate_lead` lines 676-694: the recognized
legitimate-business-category terms checked against the lowercased brand name. -/
def business_terms : List String :=
  ["dermatology", "medspa", "salon", "dental", "spa", "wellness", "fitness", "medical",
   "aesthetics", "cosmetic", "plastic surgery",
   "orthodontist", "orthodontic", "lasik", "eye surgery", "vision correction",
   "ophthalmologist", "optometrist", "chiropractor", "chiropractic",
   "law firm", "attorney", "law office", "legal practice", "lawyer", "cpa", "accountant",
   "accounting firm", "tax preparation", "tax services",
   "catering", "catering company", "event catering", "restaurant", "dining", "fine dining",
   "wine bar", "cocktail bar", "bar", "hotel", "boutique hotel", "luxury hotel",
   "event venue", "wedding venue", "party venue", "venue", "events",
   "jeweler", "jewelry store", "fine jewelry", "gallery", "art gallery",
   "remodeler", "home remodeling", "kitchen remodeling", "bathroom remodeling", "hvac",
   "heating and cooling", "air conditioning", "roofing", "roofing company", "roof repair",
   "auto repair", "car repair", "automotive service", "dealership", "car dealership",
   "auto dealership",
   "clinic", "specialist", "practice", "studio", "center", "group"]

/-- The slice of the per-domain lead dictionary consumed by
`LeadFinder._validate_lead` (lead_finder.py 635-735). An absent brand name is
`none`, an absent domain is the empty string (both are falsy in the source). -/
structure LeadData where
  domain : String
  brand_name : Option String
  platform_subdomain : Bool
  evidence_urls : List String
  hacked_signals : List String
  deriving Repr, DecidableEq

/-- lead_finder.py `_validate_lead` lines 673-696: a lead counts as a
legitimate business when its lowercased brand name contains any recognized
business term. -/
def is_legitimate_business (brand_name : Option String) : Bool :=
  match brand_name with
  | none => false
  | some b => business_terms.any (fun term => containsSubstr (lowerStr b) term)

/-- lead_finder.py `LeadFinder._validate_lead` (lines 635-735). The
`performance_override_reason` argument only feeds log output in the source and
does not influence the decision, so it is omitted here. The final
hidden-spam check of the source (lines 729-733) is kept in place: it is
guarded by `hacked_signals` being non-empty, but every path of the preceding
confidence-based block (lines 667-727) already returns in that case, so the
check is unreachable, exactly as in the source. -/
def validate_lead (lead : LeadData) (critical_performance_issue : Bool) : Bool :=
  let domain := lowerStr lead.domain
  if lead.domain = "" then false
  else if excluded_tlds.any (fun tld => strEndsWith domain tld) then false
  else if PREVIOUSLY_SCANNED_DOMAINS.contains domain then false
  else if lead.platform_subdomain then false
  else if lead.evidence_urls = [] then false
  else if critical_performance_issue then true
  else if lead.hacked_signals ≠ [] then
    let spam_analysis := calculate_spam_confidence lead.hacked_signals
    let legit := is_legitimate_business lead.brand_name
    let avg_confidence := spam_analysis.avg_confidence
    if critical_performance_issue then true
    else if 90 ≤ avg_confidence then false
    else if 40 ≤ avg_confidence then legit
    else if 15 ≤ avg_confidence then true
    else true
  else if lead.hacked_signals ≠ [] ∧
      lead.hacked_signals.any (fun s => containsSubstr s hidden_spam_signal) then false
  else true

/-- The slice of the PSI result dictionary consumed by the
critical-performance check (`lead_data['psi']['perf']`, an optional 0-100
integer). -/
structure PSIData where
  perf : Option ℕ
  deriving Repr, DecidableEq

/-- Outcome of the critical-performance check in
`LeadFinder._process_domain_probe` (lead_finder.py 574-585). -/
structure PerfOverride where
  critical_performance_issue : Bool
  performance_override_reason : Option String
  moderate_note : Bool
  deriving Repr, DecidableEq

/-- lead_finder.py `_process_domain_probe` lines 576-585: the guard
`lead_data.get('psi') and lead_data['psi'].get('perf')` is Python truthiness,
so a present performance score of exactly 0 skips the whole block; otherwise
a score of at most 45 sets the override with reason "perf_low" and a score of
46-60 only logs a moderate-opportunity note. -/
def critical_performance_check (psi : Option PSIData) : PerfOverride :=
  match psi with
  | none => { critical_performance_issue := false, performance_override_reason := none,
              moderate_note := false }
  | some d =>
    match d.perf with
    | none => { critical_performance_issue := false, performance_override_reason := none,
                moderate_note := false }
    | some perf_score =>
      if perf_score = 0 then
        { critical_performance_issue := false, performance_override_reason := none,
          moderate_note := false }
      else if perf_score ≤ 45 then
        { critical_performance_issue := true, performance_override_reason := some "perf_low",
          moderate_note := false }
      else if perf_score ≤ 60 then
        { critical_performance_issue := false, performance_override_reason := none,
          moderate_note := true }
      else
        { critical_performance_issue := false, performance_override_reason := none,
          moderate_note := false }

/-- utils.py lines 678 and 321: `score = max(0, min(100, score))`. -/
def clamp_0_100 (score : ℤ) : ℤ := max 0 (min 100 score)

/-- utils.py `calculate_lead_score_enhanced` lines 681-686: tier from score
for the standard/defect policy. -/
def standard_tier (score : ℤ) : String :=
  if 70 ≤ score then "A" else if 50 ≤ score then "B" else "C"

/-- utils.py `calculate_seo_opportunity_score` lines 324-331: tier from score
for the SEO-rank-opportunity policy. -/
def seo_tier (score : ℤ) : String :=
  if 80 ≤ score then "A" else if 60 ≤ score then "B" else if 40 ≤ score then "C" else "D"

/-- Priority order of the tier labels, A highest. -/
def tier_rank : String → ℕ
  | "A" => 3
  | "B" => 2
  | "C" => 1
  | _ => 0

/-- Python truthiness guard `d.get(k) and d[k] <= bound` for an optional
numeric field: a missing value or a present 0 fails the guard. -/
def truthy_le (o : Option ℕ) (bound : ℕ) : Bool :=
  match o with
  | some v => v != 0 && decide (v ≤ bound)
  | none => false

/-- Python truthiness guard `d.get(k) and d[k] >= bound`. -/
def truthy_ge (o : Option ℕ) (bound : ℕ) : Bool :=
  match o with
  | some v => v != 0 && decide (bound ≤ v)
  | none => false

/-- The slice of the lead dictionary consumed by
`calculate_lead_score_enhanced` (utils.py 610-688). -/
structure ScoreData where
  psi_perf_desktop : Option ℕ
  ttfb_ms : Option ℕ
  lcp_ms : Option ℕ
  mixed_content : Bool
  http_only : Bool
  no_hsts : Bool
  builder : Option String
  old_jquery : Bool
  bootstrap_v3 : Bool
  themepunch_detected : Bool
  fouc_issues : Bool
  old_jquery_detected : Bool
  console_errors : Bool
  js_loading_issues : Bool
  missing_title : Bool
  missing_meta_desc : Bool
  missing_schema : Bool
  accessibility_poor : Bool
  copyright_outdated : Bool
  broken_links_count : ℕ
  nyc_bonus : ℕ
  deriving Repr, DecidableEq

/-- utils.py `calculate_lead_score_enhanced` (lines 610-688): additive defect
score, clamped to the 0-100 band, with the tier derived from the clamped
score. -/
def calculate_lead_score_enhanced (d : ScoreData) : ℤ × String :=
  let raw : ℤ :=
    (if truthy_le d.psi_perf_desktop 60 then 25 else 0)
    + (if truthy_ge d.ttfb_ms 1200 then 15 else 0)
    + (if truthy_ge d.lcp_ms 4000 then 15 else 0)
    + (if d.mixed_content || d.http_only then 15 else 0)
    + (if d.no_hsts then 5 else 0)
    + (if d.builder = some "Divi" then 20
       else if d.builder = some "Elementor" ∨ d.builder = some "WPBakery" then 12 else 0)
    + (if d.old_jquery then 10 else 0)
    + (if d.bootstrap_v3 then 6 else 0)
    + (if d.themepunch_detected then 15 else 0)
    + (if d.fouc_issues then 10 else 0)
    + (if d.old_jquery_detected then 8 else 0)
    + (if d.console_errors then 5 else 0)
    + (if d.js_loading_issues then 6 else 0)
    + (if d.missing_title then 8 else 0)
    + (if d.missing_meta_desc then 6 else 0)
    + (if d.missing_schema then 5 else 0)
    + (if d.accessibility_poor then 8 else 0)
    + (if d.copyright_outdated then 6 else 0)
    + (if 2 ≤ d.broken_links_count then 10 else 0)
    + (d.nyc_bonus : ℤ)
  let score := clamp_0_100 raw
  (score, standard_tier score)

/-- Python truthiness of an optional string field (`None` and the empty
string are falsy). -/
def truthy_str (o : Option String) : Bool :=
  match o with
  | some s => s != ""
  | none => false

/-- The slice of the lead dictionary consumed by
`calculate_seo_opportunity_score` (utils.py 266-333). -/
structure SeoScoreData where
  best_rank : ℕ
  title_missing : Bool
  meta_desc_missing : Bool
  robots_noindex : Bool
  multiple_h1 : Bool
  thin_content : Bool
  wp_version : Option String
  readme_accessible : Bool
  psi_perf : Option ℕ
  https : Bool
  mixed_content : Bool
  phone : Option String
  form : Bool
  deriving Repr, DecidableEq

/-- utils.py `calculate_seo_opportunity_score` (lines 266-333). The
WordPress-version staleness test (`packaging.version` comparison against
`WP_VERSION_BAD`, with a parse failure also scoring) is abstracted as the
predicate argument `is_old_wp`; every other branch is embedded directly.
The Python truthiness guards on `wp_version` and `psi['perf']` are kept. -/
def calculate_seo_opportunity_score (is_old_wp : String → Bool) (d : SeoScoreData) :
    ℤ × String :=
  let raw : ℤ :=
    (if d.best_rank ≤ 20 then 30
     else if d.best_rank ≤ 30 then 20
     else if d.best_rank ≤ 40 then 10 else 0)
    + (if d.title_missing then 25 else 0)
    + (if d.meta_desc_missing then 20 else 0)
    + (if d.robots_noindex then 30 else 0)
    + (if d.multiple_h1 then 15 else 0)
    + (if d.thin_content then 20 else 0)
    + (match d.wp_version with
       | some v => if v = "" then 0 else if is_old_wp v then 15 else 0
       | none => 0)
    + (if d.readme_accessible then 20 else 0)
    + (match d.psi_perf with
       | some perf => if perf = 0 then 0 else if perf < 50 then 20
                      else if perf < 70 then 10 else 0
       | none => 0)
    + (if d.https = false then 10 else 0)
    + (if d.mixed_content then 5 else 0)
    + (if truthy_str d.phone || d.form then 10 else 0)
  let score := clamp_0_100 raw
  (score, seo_tier score)

/-- Terminal state of one domain in `LeadFinder._process_domain_probe`
(lead_finder.py 451-633): appended to the accepted leads, recorded in the
rejected-domains map, or skipped early as previously scanned (lines 456-460,
which only bump the rejected counter and record the domain nowhere). -/
inductive ProbeOutcome
  | accepted
  | rejected (reason : String)
  | skipped
  deriving Repr, DecidableEq

/-- Whether the outcome places the domain in the accepted-leads list. -/
def ProbeOutcome.inLeads : ProbeOutcome → Bool
  | .accepted => true
  | _ => false

/-- Whether the outcome places the domain in the rejected-domains map. -/
def ProbeOutcome.inRejectedDomains : ProbeOutcome → Bool
  | .rejected _ => true
  | _ => false

/-- The decision skeleton of `LeadFinder._process_domain_probe`
(lead_finder.py 451-633) for one probed domain: the early
previously-scanned skip, the critical-performance check on the PSI result,
the validation gate, the enhanced score, and the final admission test
`score >= config.SCORE_MIN or critical_performance_issue`. The extractor
outputs are taken as the already-populated `LeadData` and `ScoreData`
slices. -/
def process_domain_probe (lead : LeadData) (psi : Option PSIData) (sdata : ScoreData) :
    ProbeOutcome :=
  if PREVIOUSLY_SCANNED_DOMAINS.contains lead.domain then .skipped
  else
    let critical_performance_issue := (critical_performance_check psi).critical_performance_issue
    if validate_lead lead critical_performance_issue = false then .rejected "failed_validation"
    else
      let score := (calculate_lead_score_enhanced sdata).1
      if SCORE_MIN ≤ score ∨ critical_performance_issue = true then .accepted
      else .rejected ("low_score_" ++ toString score)

/-- The slice of a crawled page consumed by
`WebCrawler.extract_technical_info` (crawler.py 148-207). A page with no
body has `content = ""` (falsy in the source). -/
structure TechPage where
  url : String
  status_code : ℕ
  content : String
  deriving Repr, DecidableEq

/-- crawler.py line 174: `'wordpress' in content or 'wp-content' in content`
on the lowercased body. -/
def wp_fingerprint (lowered : String) : Bool :=
  containsSubstr lowered "wordpress" || containsSubstr lowered "wp-content"

/-- crawler.py line 196: PHP error banner markers searched in the lowercased
body. -/
def php_error_markers : List String :=
  ["warning:", "deprecated:", "fatal error:", "parse error:"]

/-- Result shape of `WebCrawler.extract_technical_info` (models.py TechInfo /
crawler.py 158-165). -/
structure TechInfo where
  cms : Option String
  wp_version : Option String
  jquery_version : Option String
  php_banner : Bool
  readme_accessible : Bool
  wp_json_accessible : Bool
  deriving Repr, DecidableEq

/-- The initial `tech_info` dictionary of crawler.py lines 158-165. -/
def init_tech_info : TechInfo :=
  { cms := none, wp_version := none, jquery_version := none,
    php_banner := false, readme_accessible := false, wp_json_accessible := false }

/-- One iteration of the page loop of `extract_technical_info`
(crawler.py 167-205). The two `re.search` version extractions (generator-tag
WordPress version, bundled jQuery version) are abstracted as the function
arguments `wp_version_search` and `jquery_search`; a match unconditionally
overwrites the field, exactly as `tech_info['wp_version'] = ...` does in the
source. -/
def update_tech_info (wp_version_search jquery_search : String → Option String)
    (ti : TechInfo) (page : TechPage) : TechInfo :=
  if page.content = "" ∨ 400 ≤ page.status_code then ti
  else
    let lowered := lowerStr page.content
    let ti :=
      if wp_fingerprint lowered then
        let ti := { ti with cms := some "WordPress" }
        let ti :=
          match wp_version_search page.content with
          | some v => { ti with wp_version := some v }
          | none => ti
        match jquery_search page.content with
        | some v => { ti with jquery_version := some v }
        | none => ti
      else ti
    let ti :=
      if php_error_markers.any (fun m => containsSubstr lowered m) then
        { ti with php_banner := true }
      else ti
    let ti :=
      if containsSubstr page.url "readme.html" ∧ page.status_code = 200 then
        { ti with readme_accessible := true }
      else ti
    if containsSubstr page.url "wp-json" ∧ page.status_code = 200 then
      { ti with wp_json_accessible := true }
    else ti

/-- crawler.py `WebCrawler.extract_technical_info` (lines 148-207): fold the
per-page update over the page list in order. -/
def extract_technical_info (wp_version_search jquery_search : String → Option String)
    (pages : List TechPage) : TechInfo :=
  pages.foldl (update_tech_info wp_version_search jquery_search) init_tech_info

/-- Result shape of one page fetch (models.py CrawlResult). Load time is
measured wall-clock in the source and passed in as a parameter here. -/
structure CrawlResult where
  url : String
  status_code : ℕ
  content : Option String
  content_type : Option String
  size_bytes : ℕ
  load_time_ms : ℕ
  error : Option String
  deriving Repr, DecidableEq

/-- What the transport layer hands `_crawl_page` for one URL: a response
(status, body text, content-type header), a timeout, or any other transport
exception with its message. -/
inductive FetchOutcome
  | success (status : ℕ) (body : String) (content_type : String)
  | timeout
  | failure (msg : String)
  deriving Repr, DecidableEq

/-- Python `content[:max_bytes]` (character-wise slice). -/
def truncate (max_bytes : ℕ) (s : String) : String :=
  String.mk (s.data.take max_bytes)

/-- crawler.py `WebCrawler._crawl_page` (lines 101-146): a successful
response has its body truncated at `max_bytes` (crawler.py 119-120) with
`size_bytes` recording the truncated length; a timeout yields a status-0
result with error "timeout"; any other exception yields a status-0 result
with the exception text. The function is total: every outcome produces a
`CrawlResult`, mirroring the try/except that never lets an exception
propagate. -/
def crawl_page (max_bytes : ℕ) (url : String) (load_time_ms : ℕ) :
    FetchOutcome → CrawlResult
  | .success status body content_type =>
    let content := if max_bytes < body.length then truncate max_bytes body else body
    { url := url, status_code := status, content := some content,
      content_type := some content_type, size_bytes := content.length,
      load_time_ms := load_time_ms, error := none }
  | .timeout =>
    { url := url, status_code := 0, content := none, content_type := none,
      size_bytes := 0, load_time_ms := load_time_ms, error := some "timeout" }
  | .failure msg =>
    { url := url, status_code := 0, content := none, content_type := none,
      size_bytes := 0, load_time_ms := load_time_ms, error := some msg }

/-- A `ScoreData` with every signal absent; scores 0 under the standard
policy. -/
def zero_score_data : ScoreData :=
  { psi_perf_desktop := none, ttfb_ms := none, lcp_ms := none,
    mixed_content := false, http_only := false, no_hsts := false,
    builder := none, old_jquery := false, bootstrap_v3 := false,
    themepunch_detected := false, fouc_issues := false, old_jquery_detected := false,
    console_errors := false, js_loading_issues := false,
    missing_title := false, missing_meta_desc := false, missing_schema := false,
    accessibility_poor := false, copyright_outdated := false,
    broken_links_count := 0, nyc_bonus := 0 }

/-- A domain whose hacked signals contain the 100%-confidence hidden-spam
signal diluted by four low-confidence signals, so that the weighted average
is (100 + 4*20) / 5 = 36, inside the low-confidence accept band. -/
def c1_lead : LeadData :=
  { domain := "hiddenspam-example.com", brand_name := none, platform_subdomain := false,
    evidence_urls := ["https://hiddenspam-example.com/"],
    hacked_signals :=
      [hidden_spam_signal,
       "Spam content (20% confidence): click here",
       "Spam content (20% confidence): learn more",
       "Spam content (20% confidence): read more",
       "Spam content (20% confidence): seo ranking"] }

/-- A structurally valid domain carrying a single 100%-confidence spam
signal, so that the spam-confidence step alone would reject it. -/
def c2_lead : LeadData :=
  { domain := "slow-spam-example.com", brand_name := none, platform_subdomain := false,
    evidence_urls := ["https://slow-spam-example.com/"],
    hacked_signals := ["Spam content (100% confidence): casino"] }

/-- A probed domain that is on the prior-scan exclusion list
(config.py `PREVIOUSLY_SCANNED_DOMAINS` contains "springstderm.com"). -/
def scanned_lead : LeadData :=
  { domain := "springstderm.com", brand_name := none, platform_subdomain := false,
    evidence_urls := ["https://springstderm.com/"], hacked_signals := [] }

/-- A probed domain that is not on the prior-scan exclusion list. -/
def fresh_lead : LeadData :=
  { domain := "fresh-lead-example.com", brand_name := none, platform_subdomain := false,
    evidence_urls := ["https://fresh-lead-example.com/"], hacked_signals := [] }

/-- The concrete signal list of the spec's spam-confidence example:
two 100%-tagged signals and one 60%-tagged signal. -/
def c5_signals : List String :=
  ["Spam content (100% confidence): pattern-one",
   "Spam content (100% confidence): pattern-two",
   "Spam content (60% confidence): pattern-three"]

/-- A concrete generator-tag version matcher used to exercise the
technology extractor: each of the two test bodies yields a distinct
WordPress version string. -/
def c6_wp_version_search : String → Option String :=
  fun content =>
    if content = "wordpress generator version 1.0" then some "1.0"
    else if content = "wordpress generator version 2.0" then some "2.0"
    else none

/-- A concrete bundled-jQuery version matcher for the same two test bodies. -/
def c6_jquery_search : String → Option String :=
  fun content =>
    if content = "wordpress generator version 1.0" then some "1.4"
    else if content = "wordpress generator version 2.0" then some "3.6"
    else none

/-- First crawled page of the technology-extractor test: WordPress
fingerprint with version 1.0. -/
def c6_page_one : TechPage :=
  { url := "https://example-site.com/", status_code := 200,
    content := "wordpress generator version 1.0" }

/-- Second crawled page of the technology-extractor test: WordPress
fingerprint with version 2.0. -/
def c6_page_two : TechPage :=
  { url := "https://example-site.com/about", status_code := 200,
    content := "wordpress generator version 2.0" }

/-- A character-wise truncation keeps exactly `n` characters when the string
is at least that long. -/
theorem truncate_length (n : ℕ) (s : String) (h : n ≤ s.length) :
    (truncate n s).length = n := by
  have hr : (truncate n s).length = (s.data.take n).length := rfl
  have hs : s.length = s.data.length := rfl
  rw [hr, List.length_take]
  omega

/-- The clamp of utils.py lines 678/321 always lands in the 0-100 band. -/
theorem clamp_0_100_bounds (s : ℤ) : 0 ≤ clamp_0_100 s ∧ clamp_0_100 s ≤ 100 := by
  unfold clamp_0_100
  constructor
  · exact le_max_left 0 _
  · rw [max_le_iff]
    exact ⟨by norm_num, le_trans (min_le_left _ _) (le_refl _)⟩

/-- Claim C1. The spec requires the gate to reject unconditionally whenever a
100%-confidence hidden-spam signal is present, even where the confidence-based
step would accept. The code does not: every path of the confidence block in
`_validate_lead` returns before the dedicated hidden-spam check (lead_finder.py
729-733, whose own comment says it rejects regardless of business type), so
that check is unreachable. This theorem evaluates the gate at a failing input:
the hidden-spam signal diluted by four 20%-tagged signals gives a weighted
average of 36, the low-confidence band accepts, and the lead is validated. -/
theorem hidden_spam_lead_validated :
    validate_lead c1_lead false = true ∧
    c1_lead.hacked_signals.contains hidden_spam_signal = true ∧
    (calculate_spam_confidence c1_lead.hacked_signals).avg_confidence = 36 := by
  have h100 : (c1_lead.hacked_signals.filter (fun s => containsSubstr s tag100)).length = 1 := by
    decide
  have h60 : (c1_lead.hacked_signals.filter (fun s => containsSubstr s tag60)).length = 0 := by
    decide
  have h20 : (c1_lead.hacked_signals.filter (fun s => containsSubstr s tag20)).length = 4 := by
    decide
  have havg : (calculate_spam_confidence c1_lead.hacked_signals).avg_confidence = 36 := by
    simp only [calculate_spam_confidence, h100, h60, h20]
    norm_num
  have h90 : ¬ (90 ≤ (calculate_spam_confidence c1_lead.hacked_signals).avg_confidence) := by
    rw [havg]; norm_num
  have h40 : ¬ (40 ≤ (calculate_spam_confidence c1_lead.hacked_signals).avg_confidence) := by
    rw [havg]; norm_num
  have h15 : (15 ≤ (calculate_spam_confidence c1_lead.hacked_signals).avg_confidence) := by
    rw [havg]; norm_num
  refine ⟨?_, by decide, havg⟩
  simp only [validate_lead]
  rw [if_neg (by decide : ¬ (c1_lead.domain = ""))]
  rw [if_neg (by decide : ¬ (excluded_tlds.any
    (fun tld => strEndsWith (lowerStr c1_lead.domain) tld) = true))]
  rw [if_neg (by decide : ¬ (PREVIOUSLY_SCANNED_DOMAINS.contains (lowerStr c1_lead.domain) = true))]
  rw [if_neg (by decide : ¬ (c1_lead.platform_subdomain = true))]
  rw [if_neg (by decide : ¬ (c1_lead.evidence_urls = []))]
  rw [if_neg (by decide : ¬ (false = true))]
  rw [if_pos (by decide : c1_lead.hacked_signals ≠ [])]
  rw [if_neg (by decide : ¬ (false = true))]
  rw [if_neg h90, if_neg h40, if_pos h15]

/-- Claim C2: when the critical-performance override holds and the structural
checks pass (non-empty domain, no excluded TLD, not previously scanned, not a
platform subdomain, at least one evidence URL), the gate validates the lead
regardless of its hacked signals, and the admission step accepts it for any
score, waiving the SCORE_MIN floor. -/
theorem critical_override_waives_spam_and_floor
    (lead : LeadData) (psi : Option PSIData) (sdata : ScoreData)
    (hdom : lead.domain ≠ "")
    (htld : excluded_tlds.any (fun tld => strEndsWith (lowerStr lead.domain) tld) = false)
    (hscan : PREVIOUSLY_SCANNED_DOMAINS.contains (lowerStr lead.domain) = false)
    (hraw : PREVIOUSLY_SCANNED_DOMAINS.contains lead.domain = false)
    (hplat : lead.platform_subdomain = false)
    (hev : lead.evidence_urls ≠ [])
    (hcrit : (critical_performance_check psi).critical_performance_issue = true) :
    validate_lead lead true = true ∧
    process_domain_probe lead psi sdata = .accepted := by
  have hval : validate_lead lead true = true := by
    simp only [validate_lead]
    rw [if_neg hdom]
    rw [if_neg (by rw [htld]; exact Bool.false_ne_true)]
    rw [if_neg (by rw [hscan]; exact Bool.false_ne_true)]
    rw [if_neg (by rw [hplat]; exact Bool.false_ne_true)]
    rw [if_neg hev]
    simp
  refine ⟨hval, ?_⟩
  simp only [process_domain_probe]
  rw [if_neg (by rw [hraw]; exact Bool.false_ne_true)]
  rw [hcrit]
  rw [if_neg (by simp [hval])]
  simp

/-- Claim C2 witness: a domain carrying a 100%-confidence spam signal and a
zero defect score is still validated and accepted once the performance score
40 sets the override. -/
theorem critical_override_waives_spam_and_floor_witness :
    validate_lead c2_lead true = true ∧
    process_domain_probe c2_lead (some { perf := some 40 }) zero_score_data =
      .accepted :=
  critical_override_waives_spam_and_floor c2_lead (some { perf := some 40 })
    zero_score_data (by decide) (by decide) (by decide) (by decide) (by decide)
    (by decide) (by decide)

/-- Claim C3, amended: for a probed domain that is not on the prior-scan
exclusion list, `_process_domain_probe` ends in exactly one of accepted
leads / rejected domains. (The original claim fails for prior-scan domains,
see the counterexample.) -/
theorem unscanned_probe_exactly_one_outcome
    (lead : LeadData) (psi : Option PSIData) (sdata : ScoreData)
    (h : PREVIOUSLY_SCANNED_DOMAINS.contains lead.domain = false) :
    ((process_domain_probe lead psi sdata).inLeads = true ∧
     (process_domain_probe lead psi sdata).inRejectedDomains = false) ∨
    ((process_domain_probe lead psi sdata).inLeads = false ∧
     (process_domain_probe lead psi sdata).inRejectedDomains = true) := by
  simp only [process_domain_probe]
  rw [if_neg (by rw [h]; exact Bool.false_ne_true)]
  split
  · exact Or.inr ⟨rfl, rfl⟩
  · split
    · exact Or.inl ⟨rfl, rfl⟩
    · exact Or.inr ⟨rfl, rfl⟩

/-- Claim C3 witness: a freshly discovered domain with no signals at all is
rejected (low score) and lands in exactly the rejected side. -/
theorem unscanned_probe_exactly_one_outcome_witness :
    ((process_domain_probe fresh_lead none zero_score_data).inLeads = true ∧
     (process_domain_probe fresh_lead none zero_score_data).inRejectedDomains = false) ∨
    ((process_domain_probe fresh_lead none zero_score_data).inLeads = false ∧
     (process_domain_probe fresh_lead none zero_score_data).inRejectedDomains = true) :=
  unscanned_probe_exactly_one_outcome fresh_lead none zero_score_data (by decide)

/-- Claim C3 counterexample: a probed domain on the prior-scan exclusion list
is skipped by the early return of `_process_domain_probe` (lead_finder.py
456-460): it is appended to neither the accepted leads nor the
rejected-domains map, so it appears in neither set, refuting the claim that
every probed domain appears in exactly one of them. -/
theorem scanned_probe_in_neither_set :
    process_domain_probe scanned_lead none zero_score_data = .skipped ∧
    (process_domain_probe scanned_lead none zero_score_data).inLeads = false ∧
    (process_domain_probe scanned_lead none zero_score_data).inRejectedDomains = false := by
  refine ⟨?_, ?_, ?_⟩ <;> decide

/-- Claim C4, amended: when the PSI performance score is present and nonzero,
a value of at most 45 sets the critical-performance override with reason
"perf_low", a value of 46-60 only logs the moderate-opportunity note, and a
larger value does neither; in particular 45 sets the override and 46 does
not. (The original claim fails at a present score of exactly 0, which the
Python truthiness guard treats as missing — see the counterexample.) -/
theorem critical_performance_band_behaviour (p : ℕ) :
    (1 ≤ p → p ≤ 45 →
      critical_performance_check (some { perf := some p }) =
        { critical_performance_issue := true,
          performance_override_reason := some "perf_low", moderate_note := false }) ∧
    (46 ≤ p → p ≤ 60 →
      critical_performance_check (some { perf := some p }) =
        { critical_performance_issue := false,
          performance_override_reason := none, moderate_note := true }) ∧
    (61 ≤ p →
      critical_performance_check (some { perf := some p }) =
        { critical_performance_issue := false,
          performance_override_reason := none, moderate_note := false }) ∧
    (critical_performance_check (some { perf := some 45 })).critical_performance_issue
      = true ∧
    (critical_performance_check (some { perf := some 45 })).performance_override_reason
      = some "perf_low" ∧
    (critical_performance_check (some { perf := some 46 })).critical_performance_issue
      = false ∧
    (critical_performance_check (some { perf := some 46 })).moderate_note = true := by
  refine ⟨?_, ?_, ?_, by decide, by decide, by decide, by decide⟩
  · intro h1 h2
    simp only [critical_performance_check]
    rw [if_neg (by omega : ¬ p = 0), if_pos h2]
  · intro h1 h2
    simp only [critical_performance_check]
    rw [if_neg (by omega : ¬ p = 0), if_neg (by omega : ¬ p ≤ 45), if_pos h2]
  · intro h1
    simp only [critical_performance_check]
    rw [if_neg (by omega : ¬ p = 0), if_neg (by omega : ¬ p ≤ 45),
      if_neg (by omega : ¬ p ≤ 60)]

/-- Claim C4 witness: performance score 30 sets the override with reason
"perf_low". -/
theorem critical_performance_band_behaviour_witness :
    critical_performance_check (some { perf := some 30 }) =
      { critical_performance_issue := true,
        performance_override_reason := some "perf_low", moderate_note := false } :=
  (critical_performance_band_behaviour 30).1 (by decide) (by decide)

/-- Claim C4 counterexample: a present performance score of exactly 0 is at
most 45, yet the truthiness guard `lead_data['psi'].get('perf')` skips the
whole block, so neither the override nor the moderate note is set. -/
theorem perf_zero_sets_no_override :
    (critical_performance_check (some { perf := some 0 })).critical_performance_issue
      = false ∧
    (critical_performance_check (some { perf := some 0 })).performance_override_reason
      = none ∧
    (critical_performance_check (some { perf := some 0 })).moderate_note = false := by
  refine ⟨?_, ?_, ?_⟩ <;> decide

/-- Claim C5: the spam-confidence aggregate is the tier-value average
weighted by the number of signals counted in each tier (0 when no signal is
tagged), and on the concrete signal list tagged [100%, 100%, 60%] the average
is 260/3 = 86.67, below the 90 reject threshold, so the recommendation is the
REVIEW band. -/
theorem spam_confidence_weighted_average :
    (∀ signals : List String,
      (calculate_spam_confidence signals).avg_confidence =
        if signals.countP (fun s => containsSubstr s tag100)
            + signals.countP (fun s => containsSubstr s tag60)
            + signals.countP (fun s => containsSubstr s tag20) = 0 then 0
        else
          ((100 * signals.countP (fun s => containsSubstr s tag100)
            + 60 * signals.countP (fun s => containsSubstr s tag60)
            + 20 * signals.countP (fun s => containsSubstr s tag20) : ℕ) : ℚ)
          / ((signals.countP (fun s => containsSubstr s tag100)
            + signals.countP (fun s => containsSubstr s tag60)
            + signals.countP (fun s => containsSubstr s tag20) : ℕ) : ℚ)) ∧
    (calculate_spam_confidence c5_signals).high_confidence_count = 2 ∧
    (calculate_spam_confidence c5_signals).medium_confidence_count = 1 ∧
    (calculate_spam_confidence c5_signals).low_confidence_count = 0 ∧
    (calculate_spam_confidence c5_signals).avg_confidence = 260 / 3 ∧
    ¬ (90 ≤ (calculate_spam_confidence c5_signals).avg_confidence) ∧
    40 ≤ (calculate_spam_confidence c5_signals).avg_confidence ∧
    (calculate_spam_confidence c5_signals).recommendation =
      "REVIEW - Medium confidence, needs human review" := by
  have h100 : (c5_signals.filter (fun s => containsSubstr s tag100)).length = 2 := by
    decide
  have h60 : (c5_signals.filter (fun s => containsSubstr s tag60)).length = 1 := by
    decide
  have h20 : (c5_signals.filter (fun s => containsSubstr s tag20)).length = 0 := by
    decide
  have havg : (calculate_spam_confidence c5_signals).avg_confidence = 260 / 3 := by
    simp only [calculate_spam_confidence, h100, h60, h20]
    norm_num
  refine ⟨?_, by decide, by decide, by decide, havg, by rw [havg]; norm_num,
    by rw [havg]; norm_num, ?_⟩
  · intro signals
    simp only [calculate_spam_confidence, List.countP_eq_length_filter]
    split
    · rfl
    · push_cast
      ring
  · simp only [calculate_spam_confidence, h100, h60, h20]
    norm_num

/-- Claim C6, amended: in the technology extractor the generator-tag and
script-library version strings are taken from the last page (in probe order)
on which the pattern matches — appending a matching page to the page list
overwrites any earlier value, because `tech_info['wp_version']` is assigned
unconditionally on every matching page (crawler.py 183-193). The original
first-found-is-kept claim fails, see the counterexample. -/
theorem tech_version_last_match_wins
    (wp_version_search jquery_search : String → Option String)
    (pages : List TechPage) (p : TechPage) (v w : String)
    (hc : p.content ≠ "") (hs : p.status_code < 400)
    (hf : wp_fingerprint (lowerStr p.content) = true)
    (hv : wp_version_search p.content = some v)
    (hw : jquery_search p.content = some w) :
    (extract_technical_info wp_version_search jquery_search (pages ++ [p])).wp_version
      = some v ∧
    (extract_technical_info wp_version_search jquery_search (pages ++ [p])).jquery_version
      = some w := by
  have hcond : ¬ (p.content = "" ∨ 400 ≤ p.status_code) := by
    rintro (hx | hx)
    · exact hc hx
    · omega
  unfold extract_technical_info
  rw [List.foldl_append]
  constructor <;>
  · simp only [List.foldl_cons, List.foldl_nil, update_tech_info, if_neg hcond,
      if_pos hf, hv, hw]
    split <;> split <;> split <;> rfl

/-- Claim C6 witness: with two matching pages, the extractor reports the
second page's versions. -/
theorem tech_version_last_match_wins_witness :
    (extract_technical_info c6_wp_version_search c6_jquery_search
      ([c6_page_one] ++ [c6_page_two])).wp_version = some "2.0" ∧
    (extract_technical_info c6_wp_version_search c6_jquery_search
      ([c6_page_one] ++ [c6_page_two])).jquery_version = some "3.6" :=
  tech_version_last_match_wins c6_wp_version_search c6_jquery_search
    [c6_page_one] c6_page_two "2.0" "3.6" (by decide) (by decide) (by decide)
    (by decide) (by decide)

/-- Claim C6 counterexample: the first page matches with version 1.0, yet the
extractor returns the second page's 2.0 for both version fields — the
first-found value is not kept. -/
theorem tech_version_first_match_overwritten :
    c6_wp_version_search c6_page_one.content = some "1.0" ∧
    wp_fingerprint (lowerStr c6_page_one.content) = true ∧
    c6_page_one.status_code < 400 ∧
    c6_page_one.content ≠ "" ∧
    (extract_technical_info c6_wp_version_search c6_jquery_search
      [c6_page_one, c6_page_two]).wp_version = some "2.0" ∧
    (extract_technical_info c6_wp_version_search c6_jquery_search
      [c6_page_one, c6_page_two]).wp_version ≠ some "1.0" ∧
    (extract_technical_info c6_wp_version_search c6_jquery_search
      [c6_page_one, c6_page_two]).jquery_version = some "3.6" := by
  refine ⟨?_, ?_, ?_, ?_, ?_, ?_, ?_⟩ <;> decide

/-- Claim C7: for both scoring policies the tier is a deterministic,
monotonically non-decreasing function of the score; the standard/defect
policy cuts at 70 (A) and 50 (B), never emits D, and maps 71 to A, 69 to B
and 49 to C; and each policy's returned tier equals the tier function of its
returned score. -/
theorem tier_monotone_and_cutoffs :
    (∀ s1 s2 : ℤ, s1 ≤ s2 →
      tier_rank (standard_tier s1) ≤ tier_rank (standard_tier s2)) ∧
    (∀ s1 s2 : ℤ, s1 ≤ s2 → tier_rank (seo_tier s1) ≤ tier_rank (seo_tier s2)) ∧
    (∀ s : ℤ, (70 ≤ s → standard_tier s = "A") ∧
      (50 ≤ s ∧ s < 70 → standard_tier s = "B") ∧
      (s < 50 → standard_tier s = "C") ∧ standard_tier s ≠ "D") ∧
    standard_tier 71 = "A" ∧ standard_tier 69 = "B" ∧ standard_tier 49 = "C" ∧
    (∀ d : ScoreData, (calculate_lead_score_enhanced d).2 =
      standard_tier (calculate_lead_score_enhanced d).1) ∧
    (∀ (is_old_wp : String → Bool) (d : SeoScoreData),
      (calculate_seo_opportunity_score is_old_wp d).2 =
        seo_tier (calculate_seo_opportunity_score is_old_wp d).1) := by
  refine ⟨?_, ?_, ?_, by norm_num [standard_tier], by norm_num [standard_tier],
    by norm_num [standard_tier], fun d => rfl, fun f d => rfl⟩
  · intro s1 s2 h
    simp only [standard_tier]
    split_ifs <;> first | decide | (exfalso; omega)
  · intro s1 s2 h
    simp only [seo_tier]
    split_ifs <;> first | decide | (exfalso; omega)
  · intro s
    refine ⟨?_, ?_, ?_, ?_⟩
    · intro h
      simp only [standard_tier]
      rw [if_pos h]
    · rintro ⟨h1, h2⟩
      simp only [standard_tier]
      rw [if_neg (by omega), if_pos h1]
    · intro h
      simp only [standard_tier]
      rw [if_neg (by omega), if_neg (by omega)]
    · simp only [standard_tier]
      split_ifs <;> decide

/-- Claim C7 witness: the tier rank at score 49 is at most the tier rank at
score 71 for the standard policy. -/
theorem tier_monotone_and_cutoffs_witness :
    tier_rank (standard_tier 49) ≤ tier_rank (standard_tier 71) :=
  tier_monotone_and_cutoffs.1 49 71 (by norm_num)

/-- Claim C8: both scoring policies clamp their additive raw score into
[0, 100] for every combination of input signals. -/
theorem scores_always_in_unit_band :
    (∀ d : ScoreData, 0 ≤ (calculate_lead_score_enhanced d).1 ∧
      (calculate_lead_score_enhanced d).1 ≤ 100) ∧
    (∀ (is_old_wp : String → Bool) (d : SeoScoreData),
      0 ≤ (calculate_seo_opportunity_score is_old_wp d).1 ∧
      (calculate_seo_opportunity_score is_old_wp d).1 ≤ 100) := by
  constructor
  · intro d
    exact clamp_0_100_bounds _
  · intro is_old_wp d
    exact clamp_0_100_bounds _

/-- Claim C9: the per-page fetch is total — a timeout or a transport
exception yields a status-0 result with an error string and the measured
load time, never a propagated exception; an oversized body is truncated to
the byte ceiling (with `size_bytes` recording the truncated length) while
status, timing and the absence of an error are still recorded; a body within
the ceiling is kept whole. -/
theorem crawl_page_total_and_truncates
    (max_bytes : ℕ) (url : String) (load_time_ms : ℕ) :
    (crawl_page max_bytes url load_time_ms .timeout).status_code = 0 ∧
    (crawl_page max_bytes url load_time_ms .timeout).error = some "timeout" ∧
    (crawl_page max_bytes url load_time_ms .timeout).load_time_ms = load_time_ms ∧
    (∀ msg,
      (crawl_page max_bytes url load_time_ms (.failure msg)).status_code = 0 ∧
      (crawl_page max_bytes url load_time_ms (.failure msg)).error = some msg ∧
      (crawl_page max_bytes url load_time_ms (.failure msg)).load_time_ms
        = load_time_ms) ∧
    (∀ status body content_type, max_bytes < body.length →
      (crawl_page max_bytes url load_time_ms
        (.success status body content_type)).content = some (truncate max_bytes body) ∧
      (crawl_page max_bytes url load_time_ms
        (.success status body content_type)).size_bytes = max_bytes ∧
      (crawl_page max_bytes url load_time_ms
        (.success status body content_type)).status_code = status ∧
      (crawl_page max_bytes url load_time_ms
        (.success status body content_type)).load_time_ms = load_time_ms ∧
      (crawl_page max_bytes url load_time_ms
        (.success status body content_type)).error = none) ∧
    (∀ status body content_type, body.length ≤ max_bytes →
      (crawl_page max_bytes url load_time_ms
        (.success status body content_type)).content = some body ∧
      (crawl_page max_bytes url load_time_ms
        (.success status body content_type)).size_bytes = body.length) := by
  refine ⟨rfl, rfl, rfl, fun msg => ⟨rfl, rfl, rfl⟩, ?_, ?_⟩
  · intro status body content_type h
    simp [crawl_page, if_pos h, truncate_length _ _ (le_of_lt h)]
  · intro status body content_type h
    simp [crawl_page, if_neg (by omega : ¬ max_bytes < body.length)]

/-- Claim C9 witness: with a 3-character ceiling, a 5-character body is
truncated to 3 characters while status 200, the 7 ms load time and the
absence of an error are recorded. -/
theorem crawl_page_total_and_truncates_witness :
    (crawl_page 3 "https://e.com/" 7 (.success 200 "abcde" "text/html")).content
      = some (truncate 3 "abcde") ∧
    (crawl_page 3 "https://e.com/" 7 (.success 200 "abcde" "text/html")).size_bytes = 3 ∧
    (crawl_page 3 "https://e.com/" 7 (.success 200 "abcde" "text/html")).status_code
      = 200 ∧
    (crawl_page 3 "https://e.com/" 7 (.success 200 "abcde" "text/html")).load_time_ms
      = 7 ∧
    (crawl_page 3 "https://e.com/" 7 (.success 200 "abcde" "text/html")).error = none :=
  (crawl_page_total_and_truncates 3 "https://e.com/" 7).2.2.2.2.1
    200 "abcde" "text/html" (by decide)

/-- Claim C10: signals whose description carries none of the three confidence
tags — in particular every "Suspicious path: ..." signal emitted by the
hacked-signal detector — are counted in no tier, and a signal list made only
of such untagged signals aggregates to confidence 0 with the clean-accept
recommendation. -/
theorem untagged_signals_confidence_zero :
    (∀ url s, s ∈ detect_suspicious_path_signals url →
      containsSubstr s tag100 = false ∧ containsSubstr s tag60 = false ∧
      containsSubstr s tag20 = false) ∧
    (∀ signals : List String,
      (∀ s ∈ signals, containsSubstr s tag100 = false ∧
        containsSubstr s tag60 = false ∧ containsSubstr s tag20 = false) →
      (calculate_spam_confidence signals).avg_confidence = 0 ∧
      (calculate_spam_confidence signals).recommendation
        = "ACCEPT - No spam detected") := by
  constructor
  · intro url s hs
    simp only [detect_suspicious_path_signals, List.mem_map] at hs
    obtain ⟨p, hp, rfl⟩ := hs
    have hp' : p ∈ suspicious_paths := List.mem_of_mem_filter hp
    have hall : ∀ q ∈ suspicious_paths,
        containsSubstr ("Suspicious path: " ++ q) tag100 = false ∧
        containsSubstr ("Suspicious path: " ++ q) tag60 = false ∧
        containsSubstr ("Suspicious path: " ++ q) tag20 = false := by decide
    exact hall p hp'
  · intro signals hsig
    have f100 : signals.filter (fun s => containsSubstr s tag100) = [] :=
      List.filter_eq_nil_iff.mpr (fun s hs => by simp [(hsig s hs).1])
    have f60 : signals.filter (fun s => containsSubstr s tag60) = [] :=
      List.filter_eq_nil_iff.mpr (fun s hs => by simp [(hsig s hs).2.1])
    have f20 : signals.filter (fun s => containsSubstr s tag20) = [] :=
      List.filter_eq_nil_iff.mpr (fun s hs => by simp [(hsig s hs).2.2])
    constructor
    · simp only [calculate_spam_confidence, f100, f60, f20]
      norm_num
    · simp only [calculate_spam_confidence, f100, f60, f20]
      norm_num

/-- Claim C10 witness: a lone suspicious-path signal aggregates to
confidence 0 with the clean-accept recommendation. -/
theorem untagged_signals_confidence_zero_witness :
    (calculate_spam_confidence ["Suspicious path: /cache/"]).avg_confidence = 0 ∧
    (calculate_spam_confidence ["Suspicious path: /cache/"]).recommendation
      = "ACCEPT - No spam detected" :=
  untagged_signals_confidence_zero.2 ["Suspicious path: /cache/"] (by decide)

end GCSGen
